import Mathlib

/-!
Shallow embedding of the fastapi-authentication repository: the pydantic
request and response models with their constraint validation
(src/app/api/models/auth_models.py), the dependency injector
(src/app/core/dependency_injector.py), the Cognito HTTP service layer
(src/app/services/aws/cognito/auth.py) and the GraphQL resolvers
(src/app/api/graphql/resolvers/user_resolvers.py).
-/

/-- Rendering of an optional Python string the way an f-string renders it:
None becomes the literal string None. -/
def pyStr : Option String → String
  | none => "None"
  | some s => s

/-- Value of a Python dict entry as it appears in request and response
payloads: a string, Python None (JSON null), or a nested string dict. -/
inductive PyVal where
  | str : String → PyVal
  | null : PyVal
  | obj : List (String × String) → PyVal
deriving DecidableEq

/-- Optional string field rendered into a payload dict, as pydantic dict()
renders it: None stays None. -/
def pyOpt : Option String → PyVal
  | none => PyVal.null
  | some s => PyVal.str s

/-- Constraint check of pydantic constr with a min_length and an optional
max_length. -/
def constrOk (lo : Nat) (hi : Option Nat) (s : String) : Bool :=
  lo ≤ s.length && (match hi with
    | none => true
    | some h => s.length ≤ h)

/-- Constraint check of an optional pydantic constr field with only a
max_length: a missing value passes. -/
def optConstrOk (hi : Nat) : Option String → Bool
  | none => true
  | some s => s.length ≤ hi

/- ------------------------------------------------------------------
Request models from src/app/api/models/auth_models.py, each with the
constr bounds of its fields and the dict() rendering used by call_api.
------------------------------------------------------------------ -/

structure LoginRequest where
  username : String
  password : String
deriving DecidableEq

/-- Construction of a LoginRequest as pydantic performs it: username
1 to 50 chars, password 6 to 128 chars; none on a validation error. -/
def LoginRequest.parse (username password : String) : Option LoginRequest :=
  if constrOk 1 (some 50) username && constrOk 6 (some 128) password then
    some ⟨username, password⟩
  else none

def LoginRequest.toDict (r : LoginRequest) : List (String × PyVal) :=
  [("username", PyVal.str r.username), ("password", PyVal.str r.password)]

structure SignUpRequest where
  username : String
  password : String
  email : String
  phone_number : Option String
  given_name : Option String
  family_name : Option String
deriving DecidableEq

/-- Construction of a SignUpRequest as pydantic performs it; the EmailStr
check is abstracted as the predicate emailOk. -/
def SignUpRequest.parse (emailOk : String → Bool)
    (username password email : String)
    (phone_number given_name family_name : Option String) :
    Option SignUpRequest :=
  if constrOk 1 (some 50) username && constrOk 6 (some 128) password
      && emailOk email && optConstrOk 15 phone_number
      && optConstrOk 50 given_name && optConstrOk 50 family_name then
    some ⟨username, password, email, phone_number, given_name, family_name⟩
  else none

def SignUpRequest.toDict (r : SignUpRequest) : List (String × PyVal) :=
  [("username", PyVal.str r.username), ("password", PyVal.str r.password),
   ("email", PyVal.str r.email), ("phone_number", pyOpt r.phone_number),
   ("given_name", pyOpt r.given_name), ("family_name", pyOpt r.family_name)]

structure ConfirmSignUpRequest where
  username : String
  confirmation_code : String
deriving DecidableEq

def ConfirmSignUpRequest.parse (username confirmation_code : String) :
    Option ConfirmSignUpRequest :=
  if constrOk 1 (some 50) username && constrOk 6 (some 10) confirmation_code then
    some ⟨username, confirmation_code⟩
  else none

def ConfirmSignUpRequest.toDict (r : ConfirmSignUpRequest) :
    List (String × PyVal) :=
  [("username", PyVal.str r.username),
   ("confirmation_code", PyVal.str r.confirmation_code)]

structure ResendConfirmationCodeRequest where
  username : String
deriving DecidableEq

def ResendConfirmationCodeRequest.parse (username : String) :
    Option ResendConfirmationCodeRequest :=
  if constrOk 1 (some 50) username then some ⟨username⟩ else none

def ResendConfirmationCodeRequest.toDict (r : ResendConfirmationCodeRequest) :
    List (String × PyVal) :=
  [("username", PyVal.str r.username)]

structure TokenRefreshRequest where
  refresh_token : String
deriving DecidableEq

def TokenRefreshRequest.parse (refresh_token : String) :
    Option TokenRefreshRequest :=
  if constrOk 1 none refresh_token then some ⟨refresh_token⟩ else none

def TokenRefreshRequest.toDict (r : TokenRefreshRequest) :
    List (String × PyVal) :=
  [("refresh_token", PyVal.str r.refresh_token)]

structure ChangePasswordRequest where
  access_token : String
  previous_password : String
  proposed_password : String
deriving DecidableEq

/-- Construction of a ChangePasswordRequest as pydantic performs it: the
access_token field is required (min_length 1) and has no default, so a
construction that does not supply it fails validation. -/
def ChangePasswordRequest.parse (access_token : Option String)
    (previous_password proposed_password : String) :
    Option ChangePasswordRequest :=
  match access_token with
  | none => none
  | some t =>
    if constrOk 1 none t && constrOk 6 (some 128) previous_password
        && constrOk 6 (some 128) proposed_password then
      some ⟨t, previous_password, proposed_password⟩
    else none

def ChangePasswordRequest.toDict (r : ChangePasswordRequest) :
    List (String × PyVal) :=
  [("access_token", PyVal.str r.access_token),
   ("previous_password", PyVal.str r.previous_password),
   ("proposed_password", PyVal.str r.proposed_password)]

structure ForgotPasswordRequest where
  username : String
deriving DecidableEq

def ForgotPasswordRequest.parse (username : String) :
    Option ForgotPasswordRequest :=
  if constrOk 1 (some 50) username then some ⟨username⟩ else none

def ForgotPasswordRequest.toDict (r : ForgotPasswordRequest) :
    List (String × PyVal) :=
  [("username", PyVal.str r.username)]

structure ConfirmForgotPasswordRequest where
  username : String
  confirmation_code : String
  new_password : String
deriving DecidableEq

def ConfirmForgotPasswordRequest.parse
    (username confirmation_code new_password : String) :
    Option ConfirmForgotPasswordRequest :=
  if constrOk 1 (some 50) username && constrOk 6 (some 10) confirmation_code
      && constrOk 6 (some 128) new_password then
    some ⟨username, confirmation_code, new_password⟩
  else none

def ConfirmForgotPasswordRequest.toDict (r : ConfirmForgotPasswordRequest) :
    List (String × PyVal) :=
  [("username", PyVal.str r.username),
   ("confirmation_code", PyVal.str r.confirmation_code),
   ("new_password", PyVal.str r.new_password)]

structure UpdateUserAttributesRequest where
  access_token : String
  attributes : List (String × String)
deriving DecidableEq

/-- Construction of an UpdateUserAttributesRequest as pydantic performs
it: access_token is required with min_length 1 and has no default. -/
def UpdateUserAttributesRequest.parse (access_token : Option String)
    (attributes : List (String × String)) :
    Option UpdateUserAttributesRequest :=
  match access_token with
  | none => none
  | some t =>
    if constrOk 1 none t then some ⟨t, attributes⟩ else none

def UpdateUserAttributesRequest.toDict (r : UpdateUserAttributesRequest) :
    List (String × PyVal) :=
  [("access_token", PyVal.str r.access_token),
   ("attributes", PyVal.obj r.attributes)]

/- ------------------------------------------------------------------
Response models and their construction from a decoded JSON body, the
response_model(**response_json) step of _process_response.
------------------------------------------------------------------ -/

/-- Read an optional string field from a decoded JSON dict: absent or
null gives none, a string gives it, a nested object is a type error. -/
def jsonOptStr (j : List (String × PyVal)) (key : String) :
    Except String (Option String) :=
  match j.lookup key with
  | none => Except.ok none
  | some PyVal.null => Except.ok none
  | some (PyVal.str s) => Except.ok (some s)
  | some (PyVal.obj _) => Except.error ("str type expected: " ++ key)

/-- Read a required string field from a decoded JSON dict. -/
def jsonReqStr (j : List (String × PyVal)) (key : String) :
    Except String String :=
  match j.lookup key with
  | none => Except.error ("field required: " ++ key)
  | some (PyVal.str s) => Except.ok s
  | some _ => Except.error ("str type expected: " ++ key)

/-- Read a string field that has a default value in the model. -/
def jsonDefStr (j : List (String × PyVal)) (key dflt : String) :
    Except String String :=
  match j.lookup key with
  | none => Except.ok dflt
  | some (PyVal.str s) => Except.ok s
  | some _ => Except.error ("str type expected: " ++ key)

structure LoginResponse where
  access_token : String
  token_type : String
  refresh_token : Option String
  id_token : Option String
deriving DecidableEq

def LoginResponse.ofJson (j : List (String × PyVal)) :
    Except String LoginResponse :=
  match jsonReqStr j "access_token", jsonDefStr j "token_type" "Bearer",
      jsonOptStr j "refresh_token", jsonOptStr j "id_token" with
  | Except.ok a, Except.ok t, Except.ok r, Except.ok i =>
    Except.ok ⟨a, t, r, i⟩
  | Except.error e, _, _, _ => Except.error e
  | _, Except.error e, _, _ => Except.error e
  | _, _, Except.error e, _ => Except.error e
  | _, _, _, Except.error e => Except.error e

structure SignUpResponse where
  message : String
  user_sub : Option String
deriving DecidableEq

def SignUpResponse.ofJson (j : List (String × PyVal)) :
    Except String SignUpResponse :=
  match jsonReqStr j "message", jsonOptStr j "user_sub" with
  | Except.ok m, Except.ok u => Except.ok ⟨m, u⟩
  | Except.error e, _ => Except.error e
  | _, Except.error e => Except.error e

structure ConfirmSignUpResponse where
  message : String
deriving DecidableEq

def ConfirmSignUpResponse.ofJson (j : List (String × PyVal)) :
    Except String ConfirmSignUpResponse :=
  match jsonReqStr j "message" with
  | Except.ok m => Except.ok ⟨m⟩
  | Except.error e => Except.error e

structure ResendConfirmationCodeResponse where
  message : String
deriving DecidableEq

def ResendConfirmationCodeResponse.ofJson (j : List (String × PyVal)) :
    Except String ResendConfirmationCodeResponse :=
  match jsonReqStr j "message" with
  | Except.ok m => Except.ok ⟨m⟩
  | Except.error e => Except.error e

structure TokenRefreshResponse where
  access_token : String
  token_type : String
  id_token : Option String
deriving DecidableEq

def TokenRefreshResponse.ofJson (j : List (String × PyVal)) :
    Except String TokenRefreshResponse :=
  match jsonReqStr j "access_token", jsonDefStr j "token_type" "Bearer",
      jsonOptStr j "id_token" with
  | Except.ok a, Except.ok t, Except.ok i => Except.ok ⟨a, t, i⟩
  | Except.error e, _, _ => Except.error e
  | _, Except.error e, _ => Except.error e
  | _, _, Except.error e => Except.error e

structure ChangePasswordResponse where
  message : String
deriving DecidableEq

def ChangePasswordResponse.ofJson (j : List (String × PyVal)) :
    Except String ChangePasswordResponse :=
  match jsonReqStr j "message" with
  | Except.ok m => Except.ok ⟨m⟩
  | Except.error e => Except.error e

structure ForgotPasswordResponse where
  message : String
deriving DecidableEq

def ForgotPasswordResponse.ofJson (j : List (String × PyVal)) :
    Except String ForgotPasswordResponse :=
  match jsonReqStr j "message" with
  | Except.ok m => Except.ok ⟨m⟩
  | Except.error e => Except.error e

structure ConfirmForgotPasswordResponse where
  message : String
deriving DecidableEq

def ConfirmForgotPasswordResponse.ofJson (j : List (String × PyVal)) :
    Except String ConfirmForgotPasswordResponse :=
  match jsonReqStr j "message" with
  | Except.ok m => Except.ok ⟨m⟩
  | Except.error e => Except.error e

structure UpdateUserAttributesResponse where
  message : String
deriving DecidableEq

def UpdateUserAttributesResponse.ofJson (j : List (String × PyVal)) :
    Except String UpdateUserAttributesResponse :=
  match jsonReqStr j "message" with
  | Except.ok m => Except.ok ⟨m⟩
  | Except.error e => Except.error e

/- ------------------------------------------------------------------
Dependency injector from src/app/core/dependency_injector.py.
Interfaces, implementations and factories are identified by Nat ids;
object identity of created instances is modelled by drawing fresh Nat
ids from a counter threaded through resolve, so two instances are the
same Python object exactly when their ids are equal.
------------------------------------------------------------------ -/

inductive ServiceScope where
  | SINGLETON : ServiceScope
  | TRANSIENT : ServiceScope
  | SCOPED : ServiceScope
deriving DecidableEq

structure DependencyInjector where
  services : List (Nat × (Nat × ServiceScope))
  factories : List (Nat × Nat)
  scopes : List (Nat × Nat)
deriving DecidableEq

/-- The injector as constructed by init: empty registries. -/
def DependencyInjector.empty : DependencyInjector := ⟨[], [], []⟩

/-- register stores the implementation and scope under the interface key;
a dict assignment, so a later entry shadows an earlier one on lookup. -/
def DependencyInjector.register (inj : DependencyInjector)
    (interface implementation : Nat) (scope : ServiceScope) :
    DependencyInjector :=
  { inj with services := (interface, (implementation, scope)) :: inj.services }

def DependencyInjector.register_factory (inj : DependencyInjector)
    (interface factory : Nat) : DependencyInjector :=
  { inj with factories := (interface, factory) :: inj.factories }

/-- resolve from the source: a service entry is consulted first; a
SINGLETON is served from the scopes cache or lazily created and cached;
SCOPED and TRANSIENT both create a new instance every resolve; with no
service entry a factory is invoked if registered; otherwise a KeyError
with the message below is raised. Returns the outcome, the updated
injector, and the updated fresh-instance counter. -/
def DependencyInjector.resolve (inj : DependencyInjector)
    (interface : Nat) (counter : Nat) :
    Except String Nat × DependencyInjector × Nat :=
  match inj.services.lookup interface with
  | some (_, ServiceScope.SINGLETON) =>
    match inj.scopes.lookup interface with
    | some inst => (Except.ok inst, inj, counter)
    | none =>
      (Except.ok counter,
       { inj with scopes := (interface, counter) :: inj.scopes },
       counter + 1)
  | some (_, ServiceScope.SCOPED) => (Except.ok counter, inj, counter + 1)
  | some (_, ServiceScope.TRANSIENT) => (Except.ok counter, inj, counter + 1)
  | none =>
    match inj.factories.lookup interface with
    | some _ => (Except.ok counter, inj, counter + 1)
    | none =>
      (Except.error ("No implementation registered for " ++ toString interface),
       inj, counter)

/- ------------------------------------------------------------------
Cognito service layer from src/app/services/aws/cognito/auth.py.
------------------------------------------------------------------ -/

/-- The fields of the CognitoService dataclass that govern request
construction; the httpx client itself is represented by the
clientClosedAfter flag of each call result. -/
structure CognitoService where
  base_url : Option String
  basic_credentials : Option String
  access_token : Option String
deriving DecidableEq

/-- The keys masked by log_sensitive_data_remover. -/
def sensitive_keys : List String :=
  ["password", "access_token", "refresh_token", "id_token"]

/-- Dict comprehension of log_sensitive_data_remover: the value of every
sensitive key is replaced by the placeholder, all other entries pass
through unchanged. -/
def log_sensitive_data_remover (data : List (String × PyVal)) :
    List (String × PyVal) :=
  data.map (fun kv =>
    if sensitive_keys.contains kv.1 then (kv.1, PyVal.str "***") else kv)

/-- Headers injected by the bearer_auth decorator. -/
def CognitoService.bearer_auth (cls : CognitoService) :
    List (String × String) :=
  [("Authorization", "Bearer " ++ pyStr cls.access_token),
   ("Content-Type", "application/x-www-form-urlencoded")]

/-- Headers injected by the basic_auth decorator. -/
def CognitoService.basic_auth (cls : CognitoService) :
    List (String × String) :=
  [("Authorization", "Basic " ++ pyStr cls.basic_credentials),
   ("Content-Type", "application/x-www-form-urlencoded")]

/-- An outbound POST as handed to the httpx client. -/
structure OutboundRequest where
  url : String
  payload : List (String × PyVal)
  headers : List (String × String)
deriving DecidableEq

/-- An upstream HTTP response: status code, raw text, and the decoded
JSON body when decoding succeeds. -/
structure HttpResp where
  status : Nat
  text : String
  jsonBody : Option (List (String × PyVal))
deriving DecidableEq

/-- A stub identity provider: a function from the outbound request to
the HTTP response it returns. -/
def StubProvider : Type := OutboundRequest → HttpResp

/-- One emitted log record, in emission order. -/
inductive LogEntry where
  | requestLog : String → List (String × PyVal) → LogEntry
  | responseLog : List (String × PyVal) → LogEntry
  | decodeError : String → LogEntry
  | responseContent : String → LogEntry
  | apiCallFailed : String → LogEntry
deriving DecidableEq

/-- Error outcomes of one API call. -/
inductive ApiError where
  | jsonDecodeError : String → ApiError
  | httpStatusError : Nat → ApiError
  | responseParseError : String → ApiError
deriving DecidableEq

deriving instance DecidableEq for Except

/-- The result of one decorated API call: the returned or raised value,
the log records emitted during the call, the outbound requests issued,
and whether the httpx client was closed when the call finished. -/
structure CallResult (α : Type) where
  result : Except ApiError α
  log : List LogEntry
  requests : List OutboundRequest
  clientClosedAfter : Bool
deriving DecidableEq

/-- The body of _process_response: decode JSON (on failure log the error
and the raw text, then raise via raise_for_status or re-raise), log the
redacted decoded body, raise_for_status on a 4xx or 5xx status, then
construct the response model from the body. -/
def process_response (parse : List (String × PyVal) → Except String α)
    (response : HttpResp) : Except ApiError α × List LogEntry :=
  match response.jsonBody with
  | none =>
    let logs := [LogEntry.decodeError response.text,
                 LogEntry.responseContent response.text]
    if 400 ≤ response.status then
      (Except.error (ApiError.httpStatusError response.status), logs)
    else
      (Except.error (ApiError.jsonDecodeError response.text), logs)
  | some j =>
    let logs := [LogEntry.responseLog (log_sensitive_data_remover j)]
    if 400 ≤ response.status then
      (Except.error (ApiError.httpStatusError response.status), logs)
    else
      match parse j with
      | Except.ok v => (Except.ok v, logs)
      | Except.error m => (Except.error (ApiError.responseParseError m), logs)

/-- The call_api decorator body: build the url, redact the payload and
log the request, POST the payload with the headers injected by the auth
decorator, process the response; an exception is logged and re-raised;
the finally block closes the httpx client after every call. -/
def call_api (path : String)
    (parse : List (String × PyVal) → Except String α)
    (cls : CognitoService) (headers : List (String × String))
    (payload : List (String × PyVal)) (stub : StubProvider) : CallResult α :=
  let url := pyStr cls.base_url ++ "/" ++ path
  let safe_payload := log_sensitive_data_remover payload
  let req : OutboundRequest := ⟨url, payload, headers⟩
  let pr := process_response parse (stub req)
  let errLog : List LogEntry :=
    match pr.1 with
    | Except.ok _ => []
    | Except.error _ => [LogEntry.apiCallFailed url]
  { result := pr.1
    log := LogEntry.requestLog url safe_payload :: (pr.2 ++ errLog)
    requests := [req]
    clientClosedAfter := true }

/-- login, decorated with basic_auth and call_api at path login. -/
def CognitoService.login (cls : CognitoService) (request : LoginRequest)
    (stub : StubProvider) : CallResult LoginResponse :=
  call_api "login" LoginResponse.ofJson cls cls.basic_auth
    request.toDict stub

/-- sign_up, decorated with basic_auth and call_api at path signUp. -/
def CognitoService.sign_up (cls : CognitoService) (request : SignUpRequest)
    (stub : StubProvider) : CallResult SignUpResponse :=
  call_api "signUp" SignUpResponse.ofJson cls cls.basic_auth
    request.toDict stub

/-- confirm_sign_up, decorated with basic_auth and call_api at path
confirmSignUp. -/
def CognitoService.confirm_sign_up (cls : CognitoService)
    (request : ConfirmSignUpRequest) (stub : StubProvider) :
    CallResult ConfirmSignUpResponse :=
  call_api "confirmSignUp" ConfirmSignUpResponse.ofJson cls cls.basic_auth
    request.toDict stub

/-- resend_confirmation_code, decorated with basic_auth and call_api at
path resendConfirmationCode. -/
def CognitoService.resend_confirmation_code (cls : CognitoService)
    (request : ResendConfirmationCodeRequest) (stub : StubProvider) :
    CallResult ResendConfirmationCodeResponse :=
  call_api "resendConfirmationCode" ResendConfirmationCodeResponse.ofJson
    cls cls.basic_auth request.toDict stub

/-- refresh_token, decorated with basic_auth and call_api at path
refreshToken. -/
def CognitoService.refresh_token (cls : CognitoService)
    (request : TokenRefreshRequest) (stub : StubProvider) :
    CallResult TokenRefreshResponse :=
  call_api "refreshToken" TokenRefreshResponse.ofJson cls cls.basic_auth
    request.toDict stub

/-- change_password, decorated with bearer_auth and call_api at path
changePassword. -/
def CognitoService.change_password (cls : CognitoService)
    (request : ChangePasswordRequest) (stub : StubProvider) :
    CallResult ChangePasswordResponse :=
  call_api "changePassword" ChangePasswordResponse.ofJson cls cls.bearer_auth
    request.toDict stub

/-- forgot_password, decorated with basic_auth and call_api at path
forgotPassword. -/
def CognitoService.forgot_password (cls : CognitoService)
    (request : ForgotPasswordRequest) (stub : StubProvider) :
    CallResult ForgotPasswordResponse :=
  call_api "forgotPassword" ForgotPasswordResponse.ofJson cls cls.basic_auth
    request.toDict stub

/-- confirm_forgot_password, decorated with basic_auth and call_api at
path confirmForgotPassword. -/
def CognitoService.confirm_forgot_password (cls : CognitoService)
    (request : ConfirmForgotPasswordRequest) (stub : StubProvider) :
    CallResult ConfirmForgotPasswordResponse :=
  call_api "confirmForgotPassword" ConfirmForgotPasswordResponse.ofJson
    cls cls.basic_auth request.toDict stub

/-- update_user_attributes, decorated with bearer_auth and call_api at
path updateUserAttributes. -/
def CognitoService.update_user_attributes (cls : CognitoService)
    (request : UpdateUserAttributesRequest) (stub : StubProvider) :
    CallResult UpdateUserAttributesResponse :=
  call_api "updateUserAttributes" UpdateUserAttributesResponse.ofJson
    cls cls.bearer_auth request.toDict stub

/-- The Authorization header value of each outbound request issued
during a call. -/
def authorizationOf (c : CallResult α) : List (Option String) :=
  c.requests.map (fun q => q.headers.lookup "Authorization")

/-- validate_access_token from src/app/api/dependencies/auth.py: the
body is a bare return True for every token. -/
def validate_access_token (_access_token : String) : Bool := true

/- ------------------------------------------------------------------
GraphQL resolvers from src/app/api/graphql/resolvers/user_resolvers.py.
Each resolver body first constructs the pydantic request model from its
arguments; a pydantic ValidationError raised there aborts the resolver
before the service call on the next line is reached.
------------------------------------------------------------------ -/

/-- Outcome of a resolver invocation: the pydantic ValidationError raised
while constructing the request model, or the completed service call. -/
inductive ResolverOutcome (α : Type) where
  | validationError : ResolverOutcome α
  | completed : CallResult α → ResolverOutcome α
deriving DecidableEq

/-- Number of upstream HTTP requests issued by a resolver invocation. -/
def upstreamCalls : ResolverOutcome α → Nat
  | ResolverOutcome.validationError => 0
  | ResolverOutcome.completed r => r.requests.length

def resolve_login (username password : String) (cognito_service : CognitoService)
    (stub : StubProvider) : ResolverOutcome LoginResponse :=
  match LoginRequest.parse username password with
  | none => ResolverOutcome.validationError
  | some request => ResolverOutcome.completed (cognito_service.login request stub)

def resolve_sign_up (emailOk : String → Bool)
    (username password email : String)
    (phone_number given_name family_name : Option String)
    (cognito_service : CognitoService) (stub : StubProvider) :
    ResolverOutcome SignUpResponse :=
  match SignUpRequest.parse emailOk username password email
      phone_number given_name family_name with
  | none => ResolverOutcome.validationError
  | some request => ResolverOutcome.completed (cognito_service.sign_up request stub)

def resolve_confirm_sign_up (username confirmation_code : String)
    (cognito_service : CognitoService) (stub : StubProvider) :
    ResolverOutcome ConfirmSignUpResponse :=
  match ConfirmSignUpRequest.parse username confirmation_code with
  | none => ResolverOutcome.validationError
  | some request =>
    ResolverOutcome.completed (cognito_service.confirm_sign_up request stub)

def resolve_resend_confirmation_code (username : String)
    (cognito_service : CognitoService) (stub : StubProvider) :
    ResolverOutcome ResendConfirmationCodeResponse :=
  match ResendConfirmationCodeRequest.parse username with
  | none => ResolverOutcome.validationError
  | some request =>
    ResolverOutcome.completed (cognito_service.resend_confirmation_code request stub)

def resolve_refresh_token (refresh_token : String)
    (cognito_service : CognitoService) (stub : StubProvider) :
    ResolverOutcome TokenRefreshResponse :=
  match TokenRefreshRequest.parse refresh_token with
  | none => ResolverOutcome.validationError
  | some request =>
    ResolverOutcome.completed (cognito_service.refresh_token request stub)

/-- resolve_change_password from the source constructs the request model
with only previous_password and proposed_password; the required
access_token field is not supplied. -/
def resolve_change_password (previous_password proposed_password : String)
    (cognito_service : CognitoService) (stub : StubProvider) :
    ResolverOutcome ChangePasswordResponse :=
  match ChangePasswordRequest.parse none previous_password proposed_password with
  | none => ResolverOutcome.validationError
  | some request =>
    ResolverOutcome.completed (cognito_service.change_password request stub)

def resolve_forgot_password (username : String)
    (cognito_service : CognitoService) (stub : StubProvider) :
    ResolverOutcome ForgotPasswordResponse :=
  match ForgotPasswordRequest.parse username with
  | none => ResolverOutcome.validationError
  | some request =>
    ResolverOutcome.completed (cognito_service.forgot_password request stub)

def resolve_confirm_forgot_password
    (username confirmation_code new_password : String)
    (cognito_service : CognitoService) (stub : StubProvider) :
    ResolverOutcome ConfirmForgotPasswordResponse :=
  match ConfirmForgotPasswordRequest.parse username confirmation_code new_password with
  | none => ResolverOutcome.validationError
  | some request =>
    ResolverOutcome.completed (cognito_service.confirm_forgot_password request stub)

/-- resolve_update_user_attributes from the source constructs the request
model with only the attributes argument; the required access_token field
is not supplied. -/
def resolve_update_user_attributes (attributes : List (String × String))
    (cognito_service : CognitoService) (stub : StubProvider) :
    ResolverOutcome UpdateUserAttributesResponse :=
  match UpdateUserAttributesRequest.parse none attributes with
  | none => ResolverOutcome.validationError
  | some request =>
    ResolverOutcome.completed (cognito_service.update_user_attributes request stub)

/- ------------------------------------------------------------------
Concrete fixtures used in closed statements.
------------------------------------------------------------------ -/

/-- A stub provider that answers every request with HTTP 200 and the
body with the single field message set to ok. -/
def stubOk : StubProvider :=
  fun _ => { status := 200, text := "ok body",
             jsonBody := some [("message", PyVal.str "ok")] }

/-- A concrete service configuration. -/
def svcFixture : CognitoService :=
  { base_url := some "https://auth.example"
    basic_credentials := some "client-credentials"
    access_token := some "session-token" }

/-- The concrete request of the end-to-end scenario. -/
def reqC9 : ConfirmForgotPasswordRequest :=
  { username := "alice", confirmation_code := "123456",
    new_password := "NewPass1" }

/-- An injector with a SCOPED registration of interface 1 to
implementation 2, as performed for the Cognito service interface in
src/app/api/dependencies/auth.py. -/
def injScoped : DependencyInjector :=
  DependencyInjector.empty.register 1 2 ServiceScope.SCOPED

/-- An injector with a SINGLETON registration of interface 1 and a
TRANSIENT registration of interface 3. -/
def injMixed : DependencyInjector :=
  (DependencyInjector.empty.register 1 2 ServiceScope.SINGLETON).register
    3 4 ServiceScope.TRANSIENT

/- ------------------------------------------------------------------
Theorems.
------------------------------------------------------------------ -/

/-- Claim C1: the claim requires validate_access_token to reject expired,
malformed, badly signed or untrusted tokens with valid false. The code at
the failing input: the function body is a bare return True, so every
token string, including one whose exp claim is in the past, is reported
valid. -/
theorem C1_validate_access_token_always_true :
    ∀ token : String, validate_access_token token = true :=
  fun _ => rfl

/-- Helper: redaction puts the placeholder at every sensitive key
present in the payload. -/
theorem log_remover_mem_of_sensitive {data : List (String × PyVal)}
    {k : String} {v : PyVal} (hk : sensitive_keys.contains k = true)
    (hm : (k, v) ∈ data) :
    (k, PyVal.str "***") ∈ log_sensitive_data_remover data := by
  refine List.mem_map.mpr ⟨(k, v), hm, ?_⟩
  exact if_pos hk

/-- Helper: after redaction, the only value a sensitive key can carry is
the placeholder. -/
theorem log_remover_value_of_sensitive {data : List (String × PyVal)}
    {k : String} {w : PyVal} (hk : sensitive_keys.contains k = true)
    (hw : (k, w) ∈ log_sensitive_data_remover data) : w = PyVal.str "***" := by
  induction data with
  | nil => simp [log_sensitive_data_remover] at hw
  | cons hd tl ih =>
    simp only [log_sensitive_data_remover, List.map_cons, List.mem_cons] at hw
    rcases hw with hw | hw
    · by_cases h : sensitive_keys.contains hd.1 = true
      · rw [if_pos h] at hw
        exact congrArg Prod.snd hw
      · rw [if_neg h] at hw
        have hfst : k = hd.1 := congrArg Prod.fst hw
        rw [← hfst] at h
        exact absurd hk h
    · exact ih hw

/-- Claim C2: redaction is applied before any logging sink receives a
payload dict. The request record that call_api hands to the logger is
exactly the output of log_sensitive_data_remover, the response record of
process_response is exactly the redacted decoded body, and for every
payload containing a sensitive key the redacted representation maps that
key to the placeholder and to nothing else. -/
theorem C2_redaction_before_logging
    (payload : List (String × PyVal)) (k : String) (v : PyVal)
    (hk : sensitive_keys.contains k = true) :
    (∀ (α : Type) (path : String)
        (parse : List (String × PyVal) → Except String α)
        (cls : CognitoService) (headers : List (String × String))
        (stub : StubProvider),
        (call_api path parse cls headers payload stub).log.head? =
          some (LogEntry.requestLog (pyStr cls.base_url ++ "/" ++ path)
            (log_sensitive_data_remover payload))) ∧
    (∀ (α : Type) (parse : List (String × PyVal) → Except String α)
        (response : HttpResp) (j : List (String × PyVal)),
        response.jsonBody = some j →
        (process_response parse response).2 =
          [LogEntry.responseLog (log_sensitive_data_remover j)]) ∧
    ((k, v) ∈ payload →
      (k, PyVal.str "***") ∈ log_sensitive_data_remover payload) ∧
    (∀ w, (k, w) ∈ log_sensitive_data_remover payload → w = PyVal.str "***") := by
  refine ⟨fun α path parse cls headers stub => rfl, ?_, ?_, ?_⟩
  · intro α parse response j h
    simp only [process_response, h]
    split
    · rfl
    · split <;> rfl
  · exact fun hm => log_remover_mem_of_sensitive hk hm
  · exact fun w hw => log_remover_value_of_sensitive hk hw

/-- Claim C2 witness: the password key is sensitive and a concrete
payload holding it is logged with the placeholder in its place. -/
theorem C2_redaction_witness :
    sensitive_keys.contains "password" = true ∧
    ("password", PyVal.str "***") ∈
      log_sensitive_data_remover [("password", PyVal.str "hunter2")] :=
  ⟨by decide,
   (C2_redaction_before_logging [("password", PyVal.str "hunter2")]
     "password" (PyVal.str "hunter2") (by decide)).2.2.1 (by simp)⟩

/-- Claim C3: the claim requires the httpx client to survive each call
and be closed only at shutdown. The code at the failing input: the
finally block of call_api closes the client after every one of the nine
operations, also on success. -/
theorem C3_client_closed_after_every_call
    (cls : CognitoService) (stub : StubProvider) :
    (∀ r : LoginRequest, (cls.login r stub).clientClosedAfter = true) ∧
    (∀ r : SignUpRequest, (cls.sign_up r stub).clientClosedAfter = true) ∧
    (∀ r : ConfirmSignUpRequest,
      (cls.confirm_sign_up r stub).clientClosedAfter = true) ∧
    (∀ r : ResendConfirmationCodeRequest,
      (cls.resend_confirmation_code r stub).clientClosedAfter = true) ∧
    (∀ r : TokenRefreshRequest,
      (cls.refresh_token r stub).clientClosedAfter = true) ∧
    (∀ r : ChangePasswordRequest,
      (cls.change_password r stub).clientClosedAfter = true) ∧
    (∀ r : ForgotPasswordRequest,
      (cls.forgot_password r stub).clientClosedAfter = true) ∧
    (∀ r : ConfirmForgotPasswordRequest,
      (cls.confirm_forgot_password r stub).clientClosedAfter = true) ∧
    (∀ r : UpdateUserAttributesRequest,
      (cls.update_user_attributes r stub).clientClosedAfter = true) :=
  ⟨fun _ => rfl, fun _ => rfl, fun _ => rfl, fun _ => rfl, fun _ => rfl,
   fun _ => rfl, fun _ => rfl, fun _ => rfl, fun _ => rfl⟩

/-- Claim C4: for each of the nine resolvers, an input payload that
fails model validation makes the resolver raise a validation error and
issue zero upstream requests. -/
theorem C4_validation_rejected_before_network
    (cls : CognitoService) (stub : StubProvider) :
    (∀ u p, LoginRequest.parse u p = none →
      resolve_login u p cls stub = ResolverOutcome.validationError ∧
      upstreamCalls (resolve_login u p cls stub) = 0) ∧
    (∀ emailOk u p e ph gn fn,
      SignUpRequest.parse emailOk u p e ph gn fn = none →
      resolve_sign_up emailOk u p e ph gn fn cls stub =
        ResolverOutcome.validationError ∧
      upstreamCalls (resolve_sign_up emailOk u p e ph gn fn cls stub) = 0) ∧
    (∀ u c, ConfirmSignUpRequest.parse u c = none →
      resolve_confirm_sign_up u c cls stub = ResolverOutcome.validationError ∧
      upstreamCalls (resolve_confirm_sign_up u c cls stub) = 0) ∧
    (∀ u, ResendConfirmationCodeRequest.parse u = none →
      resolve_resend_confirmation_code u cls stub =
        ResolverOutcome.validationError ∧
      upstreamCalls (resolve_resend_confirmation_code u cls stub) = 0) ∧
    (∀ t, TokenRefreshRequest.parse t = none →
      resolve_refresh_token t cls stub = ResolverOutcome.validationError ∧
      upstreamCalls (resolve_refresh_token t cls stub) = 0) ∧
    (∀ p q, ChangePasswordRequest.parse none p q = none →
      resolve_change_password p q cls stub = ResolverOutcome.validationError ∧
      upstreamCalls (resolve_change_password p q cls stub) = 0) ∧
    (∀ u, ForgotPasswordRequest.parse u = none →
      resolve_forgot_password u cls stub = ResolverOutcome.validationError ∧
      upstreamCalls (resolve_forgot_password u cls stub) = 0) ∧
    (∀ u c p, ConfirmForgotPasswordRequest.parse u c p = none →
      resolve_confirm_forgot_password u c p cls stub =
        ResolverOutcome.validationError ∧
      upstreamCalls (resolve_confirm_forgot_password u c p cls stub) = 0) ∧
    (∀ a, UpdateUserAttributesRequest.parse none a = none →
      resolve_update_user_attributes a cls stub =
        ResolverOutcome.validationError ∧
      upstreamCalls (resolve_update_user_attributes a cls stub) = 0) := by
  refine ⟨?_, ?_, ?_, ?_, ?_, ?_, ?_, ?_, ?_⟩
  · intro u p h; simp [resolve_login, h, upstreamCalls]
  · intro emailOk u p e ph gn fn h; simp [resolve_sign_up, h, upstreamCalls]
  · intro u c h; simp [resolve_confirm_sign_up, h, upstreamCalls]
  · intro u h; simp [resolve_resend_confirmation_code, h, upstreamCalls]
  · intro t h; simp [resolve_refresh_token, h, upstreamCalls]
  · intro p q h; simp [resolve_change_password, h, upstreamCalls]
  · intro u h; simp [resolve_forgot_password, h, upstreamCalls]
  · intro u c p h; simp [resolve_confirm_forgot_password, h, upstreamCalls]
  · intro a h; simp [resolve_update_user_attributes, h, upstreamCalls]

/-- Claim C4 witness: a login payload with a password of length 5 fails
validation and the resolver issues zero upstream requests. -/
theorem C4_validation_witness :
    LoginRequest.parse "alice" "12345" = none ∧
    resolve_login "alice" "12345" svcFixture stubOk =
      ResolverOutcome.validationError ∧
    upstreamCalls (resolve_login "alice" "12345" svcFixture stubOk) = 0 :=
  ⟨by decide,
   ((C4_validation_rejected_before_network svcFixture stubOk).1
     "alice" "12345" (by decide)).1,
   ((C4_validation_rejected_before_network svcFixture stubOk).1
     "alice" "12345" (by decide)).2⟩

/-- Claim C5: each outbound request of the seven basic_auth operations
carries Authorization Basic with the client credentials and each of the
two bearer_auth operations carries Authorization Bearer with the access
token. -/
theorem C5_authorization_header_per_operation
    (cls : CognitoService) (stub : StubProvider) :
    (∀ r : LoginRequest, authorizationOf (cls.login r stub) =
      [some ("Basic " ++ pyStr cls.basic_credentials)]) ∧
    (∀ r : SignUpRequest, authorizationOf (cls.sign_up r stub) =
      [some ("Basic " ++ pyStr cls.basic_credentials)]) ∧
    (∀ r : ConfirmSignUpRequest, authorizationOf (cls.confirm_sign_up r stub) =
      [some ("Basic " ++ pyStr cls.basic_credentials)]) ∧
    (∀ r : ResendConfirmationCodeRequest,
      authorizationOf (cls.resend_confirmation_code r stub) =
      [some ("Basic " ++ pyStr cls.basic_credentials)]) ∧
    (∀ r : TokenRefreshRequest, authorizationOf (cls.refresh_token r stub) =
      [some ("Basic " ++ pyStr cls.basic_credentials)]) ∧
    (∀ r : ForgotPasswordRequest, authorizationOf (cls.forgot_password r stub) =
      [some ("Basic " ++ pyStr cls.basic_credentials)]) ∧
    (∀ r : ConfirmForgotPasswordRequest,
      authorizationOf (cls.confirm_forgot_password r stub) =
      [some ("Basic " ++ pyStr cls.basic_credentials)]) ∧
    (∀ r : ChangePasswordRequest, authorizationOf (cls.change_password r stub) =
      [some ("Bearer " ++ pyStr cls.access_token)]) ∧
    (∀ r : UpdateUserAttributesRequest,
      authorizationOf (cls.update_user_attributes r stub) =
      [some ("Bearer " ++ pyStr cls.access_token)]) :=
  ⟨fun _ => rfl, fun _ => rfl, fun _ => rfl, fun _ => rfl, fun _ => rfl,
   fun _ => rfl, fun _ => rfl, fun _ => rfl, fun _ => rfl⟩

/-- Claim C6: resolving an interface with neither a service nor a
factory registration raises the KeyError with the not-registered
message, leaves the injector unchanged, and creates no instance. -/
theorem C6_unregistered_resolution_fails
    (inj : DependencyInjector) (interface counter : Nat)
    (hs : inj.services.lookup interface = none)
    (hf : inj.factories.lookup interface = none) :
    inj.resolve interface counter =
      (Except.error ("No implementation registered for " ++ toString interface),
       inj, counter) := by
  simp [DependencyInjector.resolve, hs, hf]

/-- Claim C6 witness: the empty injector rejects interface 7. -/
theorem C6_unregistered_witness :
    DependencyInjector.empty.services.lookup 7 = none ∧
    DependencyInjector.empty.factories.lookup 7 = none ∧
    DependencyInjector.empty.resolve 7 0 =
      (Except.error ("No implementation registered for " ++ toString 7),
       DependencyInjector.empty, 0) :=
  ⟨rfl, rfl, C6_unregistered_resolution_fails DependencyInjector.empty 7 0 rfl rfl⟩

/-- Claim C7: with a SINGLETON registration and no cached instance yet,
the first resolve creates the instance lazily, caches it, and the second
resolve returns the identical instance; with a TRANSIENT registration
two resolves return distinct instances. -/
theorem C7_singleton_identical_transient_distinct
    (inj : DependencyInjector) (interface impl counter : Nat) :
    (inj.services.lookup interface = some (impl, ServiceScope.SINGLETON) →
      inj.scopes.lookup interface = none →
      (inj.resolve interface counter).1 = Except.ok counter ∧
      ((inj.resolve interface counter).2.1).scopes.lookup interface =
        some counter ∧
      (((inj.resolve interface counter).2.1).resolve interface
        ((inj.resolve interface counter).2.2)).1 = Except.ok counter) ∧
    (inj.services.lookup interface = some (impl, ServiceScope.TRANSIENT) →
      (inj.resolve interface counter).1 = Except.ok counter ∧
      (((inj.resolve interface counter).2.1).resolve interface
        ((inj.resolve interface counter).2.2)).1 = Except.ok (counter + 1) ∧
      counter ≠ counter + 1) := by
  constructor
  · intro h1 h2
    refine ⟨by simp [DependencyInjector.resolve, h1, h2], ?_, ?_⟩
    · simp [DependencyInjector.resolve, h1, h2, List.lookup]
    · simp [DependencyInjector.resolve, h1, h2, List.lookup]
  · intro h1
    refine ⟨by simp [DependencyInjector.resolve, h1], ?_, by omega⟩
    simp [DependencyInjector.resolve, h1]

/-- Claim C7 witness: in a concrete injector, interface 1 is SINGLETON
and yields instance 0 twice; interface 3 is TRANSIENT and yields
instances 5 then 6. -/
theorem C7_lifetimes_witness :
    ((injMixed.resolve 1 0).1 = Except.ok 0 ∧
     ((injMixed.resolve 1 0).2.1).scopes.lookup 1 = some 0 ∧
     (((injMixed.resolve 1 0).2.1).resolve 1
       ((injMixed.resolve 1 0).2.2)).1 = Except.ok 0) ∧
    ((injMixed.resolve 3 5).1 = Except.ok 5 ∧
     (((injMixed.resolve 3 5).2.1).resolve 3
       ((injMixed.resolve 3 5).2.2)).1 = Except.ok (5 + 1) ∧
     5 ≠ 5 + 1) :=
  ⟨(C7_singleton_identical_transient_distinct injMixed 1 2 0).1
     (by decide) (by decide),
   (C7_singleton_identical_transient_distinct injMixed 3 4 5).2 (by decide)⟩

/-- Claim C8 counterexample: with the SCOPED registration of the source
(interface 1, as registered for the Cognito service), two resolves
within one and the same boundary return instance 0 and then instance 1,
which are distinct, refuting that one shared instance is returned. -/
theorem C8_scoped_counterexample :
    (injScoped.resolve 1 0).1 = Except.ok 0 ∧
    (((injScoped.resolve 1 0).2.1).resolve 1
      ((injScoped.resolve 1 0).2.2)).1 = Except.ok 1 ∧
    (Except.ok 0 : Except String Nat) ≠ Except.ok 1 := by
  refine ⟨by decide, by decide, by decide⟩

/-- Claim C8 amended: a SCOPED registration behaves exactly like a
TRANSIENT one in this code: every resolve returns a fresh distinct
instance and leaves the injector unchanged, so instances are shared
neither across calls nor within one call boundary. -/
theorem C8_scoped_fresh_instance_each_resolve
    (inj : DependencyInjector) (interface impl counter : Nat)
    (h : inj.services.lookup interface = some (impl, ServiceScope.SCOPED)) :
    inj.resolve interface counter = (Except.ok counter, inj, counter + 1) ∧
    ((inj.resolve interface counter).2.1).resolve interface
      ((inj.resolve interface counter).2.2) =
      (Except.ok (counter + 1), inj, counter + 1 + 1) ∧
    counter ≠ counter + 1 := by
  refine ⟨by simp [DependencyInjector.resolve, h], ?_, by omega⟩
  simp [DependencyInjector.resolve, h]

/-- Claim C8 witness: the concrete SCOPED injector yields fresh
instances 0 and 1 on two resolves. -/
theorem C8_scoped_witness :
    injScoped.resolve 1 0 = (Except.ok 0, injScoped, 0 + 1) ∧
    ((injScoped.resolve 1 0).2.1).resolve 1 ((injScoped.resolve 1 0).2.2) =
      (Except.ok (0 + 1), injScoped, 0 + 1 + 1) ∧
    0 ≠ 0 + 1 :=
  C8_scoped_fresh_instance_each_resolve injScoped 1 2 0 (by decide)

/-- Claim C9: confirm_forgot_password with username alice, code 123456
and new password NewPass1 passes validation, and against a stub provider
answering HTTP 200 with body message ok it returns the response model
with message ok. -/
theorem C9_confirm_forgot_password_end_to_end :
    ConfirmForgotPasswordRequest.parse "alice" "123456" "NewPass1" =
      some reqC9 ∧
    (svcFixture.confirm_forgot_password reqC9 stubOk).result =
      Except.ok (ConfirmForgotPasswordResponse.mk "ok") := by
  refine ⟨by decide, by decide⟩

/-- Claim C10: the changePassword resolver builds its request model
without the required access_token field, so for every pair of password
arguments it ends in a validation error and issues zero upstream
requests. -/
theorem C10_change_password_always_validation_error
    (previous_password proposed_password : String)
    (cls : CognitoService) (stub : StubProvider) :
    resolve_change_password previous_password proposed_password cls stub =
      ResolverOutcome.validationError ∧
    upstreamCalls
      (resolve_change_password previous_password proposed_password cls stub) = 0 :=
  ⟨rfl, rfl⟩
